import Mathlib

/-!
Verification of the payroll core of Nomina BJ Pro 4.0
(`server/services/calculoNomina.js` and the pure parts of
`server/routes/nominas.js`).

Modelling conventions (shallow embedding of the JavaScript source):
* JavaScript numbers are modelled as exact rationals (`ℚ`).
* A field that may be `undefined` is modelled as `Option ℚ` (or the record
  itself as `Option _` when the whole object may be absent); `none` is
  JavaScript `undefined`.
* Truthiness of a number: `0` (and `undefined`) are falsy, every other
  number — including negative numbers — is truthy, as in JavaScript.
* A thrown exception is modelled with `Except`: `AppError` objects built by
  `createError` keep their `code`, `message` and `details`, and a read of an
  identifier that is not bound in any enclosing scope is modelled as
  `JsError.referenceError` (JavaScript throws
  `ReferenceError: x is not defined` in that situation).
* Records carry the fields the verified routes actually read; fields that no
  modelled code path reads (bank account, dates, ...) are omitted.

Load-bearing fact about the source, used repeatedly below: inside
`calcularNominaSemanal` the names in scope are the parameters
(`empleado`, `novedades`, `config`), `salarioBaseReal`, the destructured
`auxTransporte`, `nombres`, `cedula`, the destructured novelty fields, and
the local results (`base`, `salarioDevengado`, ...).  The identifier
`salarioBase` read by the transport-subsidy eligibility test
(`const tieneAuxilio = salarioBase <= (config.smmlv * 2)`) is NOT among
them — it is only a parameter of the separate function
`calcularValoresBase` and is never declared at module scope — so evaluating
that line throws `ReferenceError: salarioBase is not defined`, and the rest
of the function body (lines 153-244 of the source) is unreachable.
-/

/-- One entry of the list built by `validarDatos`
(`errores.push(\x7b campo, mensaje \x7d)`). -/
structure Violacion where
  campo : String
  mensaje : String
deriving DecidableEq, Repr

/-- Thrown JavaScript values reachable in the modelled code: `AppError`
objects made by `createError` (with the `details` list the engine attaches,
empty elsewhere), `ReferenceError` for a read of an unbound identifier, and
`TypeError` for a property access on `undefined`. -/
inductive JsError where
  | appError (code : String) (message : String) (details : List Violacion)
  | referenceError (name : String)
  | typeError (message : String)
deriving DecidableEq, Repr

/-- Decidable equality for `Except` results, so concrete runs of the
modelled functions can be checked by `decide`. -/
instance {ε α : Type} [DecidableEq ε] [DecidableEq α] :
    DecidableEq (Except ε α) := fun x y =>
  match x, y with
  | .error a, .error b =>
    if h : a = b then isTrue (by rw [h]) else isFalse (fun hc => h (by injection hc))
  | .ok a, .ok b =>
    if h : a = b then isTrue (by rw [h]) else isFalse (fun hc => h (by injection hc))
  | .error _, .ok _ => isFalse (fun hc => by injection hc)
  | .ok _, .error _ => isFalse (fun hc => by injection hc)

/-- Surcharge factor table, `config.factores` in `config.json`. -/
structure Factores where
  horaExtraDiurna : ℚ
  horaExtraNocturna : ℚ
  recargoNocturno : ℚ
  horaExtraDomDiurna : ℚ
  horaExtraDomNocturna : ℚ
  dominicalSinComp : ℚ
  dominicalConComp : ℚ
deriving DecidableEq, Repr

/-- System configuration (`config.json`).  `horaDivisor` is optional because
`calcularValoresBase` guards it with `config.horaDivisor || 240`; `smmlv`
equal to `0` plays the role of a falsy `config.smmlv`. -/
structure Config where
  smmlv : ℚ
  auxTransporte : ℚ
  saludPct : ℚ
  pensionPct : ℚ
  horaDivisor : Option ℚ
  factores : Factores
deriving DecidableEq, Repr

/-- Employee roster record (the fields read by the payroll code).
A `salarioBase` equal to `0` plays the role of a falsy
`empleado.salarioBase`. -/
structure Empleado where
  cedula : String
  nombres : String
  salarioBase : ℚ
  auxTransporte : ℚ
  esSalarioMinimo : Bool
  activo : Bool
deriving DecidableEq, Repr

/-- Per-period novelties.  Every field may be `undefined` in the source
(`Option`), and `validarDatos` / the destructuring defaults distinguish
`undefined` from `0`. -/
structure Novedades where
  diasLaborados : Option ℚ
  horasExtraDiurna : Option ℚ
  horasExtraNocturna : Option ℚ
  horasRecargoNocturno : Option ℚ
  horasExtraDomDiurna : Option ℚ
  horasExtraDomNocturna : Option ℚ
  dominicalSinComp : Option ℚ
  dominicalConComp : Option ℚ
  bonificacion : Option ℚ
  prestamo : Option ℚ
deriving DecidableEq, Repr

/-- Novelties object with every field `undefined` (the `\x7b\x7d` the routes
substitute for a missing novelties object). -/
def novedadesVacias : Novedades :=
  ⟨none, none, none, none, none, none, none, none, none, none⟩

/-- Truthiness test used by `validarDatos` on `empleado`:
`!empleado || !empleado.salarioBase`. -/
def empleadoInvalido : Option Empleado → Bool
  | none => true
  | some e => e.salarioBase == 0

/-- Check for `diasLaborados === undefined || diasLaborados < 0 ||
diasLaborados > 30`. -/
def diasInvalidos : Option ℚ → Bool
  | none => true
  | some v => v < 0 || v > 30

/-- Check for `x !== undefined && x < 0`. -/
def negativoSiPresente : Option ℚ → Bool
  | none => false
  | some v => v < 0

/-- Truthiness test used by `validarDatos` on the configuration:
`!config || !config.smmlv`. -/
def configInvalida : Option Config → Bool
  | none => true
  | some c => c.smmlv == 0

/-- Direct translation of `validarDatos` (calculoNomina.js lines 32-74).
Note the early `return errores` when `novedades` is absent: the
`diasLaborados`, per-field and `config` checks are skipped in that case.
Only `horasExtraDiurna`, `horasExtraNocturna`, `prestamo` and
`bonificacion` are checked for negativity; the other five novelty
quantities are never inspected. -/
def validarDatos (empleado : Option Empleado) (novedades : Option Novedades)
    (config : Option Config) : List Violacion :=
  let e1 : List Violacion :=
    if empleadoInvalido empleado then
      [⟨"empleado", "Empleado no válido o sin salario base"⟩] else []
  match novedades with
  | none => e1 ++ [⟨"novedades", "Novedades no proporcionadas"⟩]
  | some nv =>
    let e2 := e1 ++ (if diasInvalidos nv.diasLaborados then
      [⟨"diasLaborados", "Debe estar entre 0 y 30"⟩] else [])
    let e3 := e2 ++ (if negativoSiPresente nv.horasExtraDiurna then
      [⟨"horasExtraDiurna", "No puede ser negativo"⟩] else [])
    let e4 := e3 ++ (if negativoSiPresente nv.horasExtraNocturna then
      [⟨"horasExtraNocturna", "No puede ser negativo"⟩] else [])
    let e5 := e4 ++ (if negativoSiPresente nv.prestamo then
      [⟨"prestamo", "No puede ser negativo"⟩] else [])
    let e6 := e5 ++ (if negativoSiPresente nv.bonificacion then
      [⟨"bonificacion", "No puede ser negativo"⟩] else [])
    e6 ++ (if configInvalida config then
      [⟨"config", "Configuración del sistema no disponible"⟩] else [])

/-- JavaScript `x || d` on an optional number: the default `d` is taken when
`x` is `undefined` or `0` (falsy), otherwise the value of `x`. -/
def jsOrDefault (x : Option ℚ) (d : ℚ) : ℚ :=
  match x with
  | none => d
  | some v => if v == 0 then d else v

/-- Result record of `calcularValoresBase`. -/
structure ValoresBase where
  valorDia : ℚ
  auxDia : ℚ
  saludDia : ℚ
  pensionDia : ℚ
  horaOrdinaria : ℚ
  horaExtraDiurna : ℚ
  horaExtraNocturna : ℚ
  recargoNocturno : ℚ
  horaExtraDomDiurna : ℚ
  horaExtraDomNocturna : ℚ
  dominicalSinComp : ℚ
  dominicalConComp : ℚ
deriving DecidableEq, Repr

/-- Direct translation of `calcularValoresBase` (calculoNomina.js lines
82-104), including the `config.horaDivisor || 240` guard. -/
def calcularValoresBase (salarioBase : ℚ) (config : Config) : ValoresBase :=
  let horaDivisor := jsOrDefault config.horaDivisor 240
  { valorDia := salarioBase / 30
    auxDia := config.auxTransporte / 30
    saludDia := (salarioBase * (config.saludPct / 100)) / 30
    pensionDia := (salarioBase * (config.pensionPct / 100)) / 30
    horaOrdinaria := salarioBase / horaDivisor
    horaExtraDiurna := (salarioBase / horaDivisor) * config.factores.horaExtraDiurna
    horaExtraNocturna := (salarioBase / horaDivisor) * config.factores.horaExtraNocturna
    recargoNocturno := (salarioBase / horaDivisor) * config.factores.recargoNocturno
    horaExtraDomDiurna := (salarioBase / horaDivisor) * config.factores.horaExtraDomDiurna
    horaExtraDomNocturna := (salarioBase / horaDivisor) * config.factores.horaExtraDomNocturna
    dominicalSinComp := (salarioBase / 30) * config.factores.dominicalSinComp
    dominicalConComp := (salarioBase / 30) * config.factores.dominicalConComp }

/-- JavaScript `Math.round` on an idealised (rational) number: the integer
closest to the argument, with ties rounded toward positive infinity, i.e.
`⌊x + 1/2⌋`. -/
def mathRound (x : ℚ) : ℤ := ⌊x + 1/2⌋

/-- Direct translation of `redondear` (calculoNomina.js lines 272-274):
`Math.round(valor * 100) / 100`. -/
def redondear (valor : ℚ) : ℚ := (mathRound (valor * 100) : ℚ) / 100

/-- Effective salary selection (calculoNomina.js lines 125-128): when
`empleado.esSalarioMinimo` is set, `config.smmlv` replaces the stored
salary for the rate computations. -/
def salarioBaseReal (empleado : Empleado) (config : Config) : ℚ :=
  if empleado.esSalarioMinimo then config.smmlv else empleado.salarioBase

/-- Settlement record as stored in a payroll batch: the fields of the
engine result that the batch routes later read (`l.cedula`,
`l.totalNomina`, `l.totalConsignado`) plus the `tipoNomina` tag the
callers stamp on it. -/
structure Liquidacion where
  cedula : String
  nombres : String
  totalNomina : ℚ
  totalConsignado : ℚ
  tipoNomina : String
deriving DecidableEq, Repr

/-- Direct translation of `calcularNominaSemanal` (calculoNomina.js lines
113-245).  After validation succeeds, the three inputs are necessarily
present (`validarDatos` reports absent ones), the effective salary and the
base values are computed, and then the transport-subsidy eligibility test
reads the unbound identifier `salarioBase` (line 152 of the source; see the
header comment), so the function stops with a `ReferenceError` and the
remainder of the source body is dead code.  In particular no `.ok` value is
ever produced. -/
def calcularNominaSemanal (empleado : Option Empleado)
    (novedades : Option Novedades) (config : Option Config) :
    Except JsError Liquidacion :=
  let errores := validarDatos empleado novedades config
  if errores.length > 0 then
    .error (.appError "VALIDATION_ERROR" "Error en los datos de entrada" errores)
  else
    match empleado, novedades, config with
    | some emp, some _nv, some cfg =>
      let sReal := salarioBaseReal emp cfg
      let _base := calcularValoresBase sReal cfg
      -- next source line: `const tieneAuxilio = salarioBase <= (config.smmlv * 2);`
      -- `salarioBase` is unbound here, so evaluation throws.
      .error (.referenceError "salarioBase")
    | _, _, _ =>
      -- unreachable: `validarDatos` reports every absent input, so the
      -- guard above has already thrown.
      .error (.referenceError "salarioBase")

/-- Novelties object built by `calcularNominaMensual` (calculoNomina.js
lines 256-259): `\x7b ...novedades, diasLaborados: novedades.diasLaborados
|| 30 \x7d`.  Because `||` tests truthiness, a supplied `0` is replaced by
`30` exactly like a missing value. -/
def novedadesMensuales (novedades : Novedades) : Novedades :=
  { novedades with diasLaborados := some (jsOrDefault novedades.diasLaborados 30) }

/-- Tag written by `resultado.tipoNomina = 'MENSUAL'`. -/
def ponerTipoMensual (r : Liquidacion) : Liquidacion :=
  { r with tipoNomina := "MENSUAL" }

/-- Direct translation of `calcularNominaMensual` (calculoNomina.js lines
254-265).  When `novedades` is `undefined`, the property read
`novedades.diasLaborados` itself throws a `TypeError`. -/
def calcularNominaMensual (empleado : Option Empleado)
    (novedades : Option Novedades) (config : Option Config) :
    Except JsError Liquidacion :=
  match novedades with
  | none => .error (.typeError "Cannot read properties of undefined")
  | some nv =>
    (calcularNominaSemanal empleado (some (novedadesMensuales nv)) config).map
      ponerTipoMensual

/-- Running totals of a payroll batch. -/
structure Totales where
  totalNomina : ℚ
  totalConsignado : ℚ
deriving DecidableEq, Repr

/-- Error entry collected by the bulk route
(`\x7b cedula, nombres, error: error.message \x7d`). -/
structure ErrorEntry where
  cedula : String
  nombres : String
  error : String
deriving DecidableEq, Repr

/-- Payroll batch document (one JSON file per period).  Timestamps are
opaque strings passed in by the caller; `errores` is `none` when the field
is left `undefined`. -/
structure Nomina where
  periodo : String
  tipoNomina : String
  estado : String
  liquidaciones : List Liquidacion
  totales : Totales
  errores : Option (List ErrorEntry)
  creadoAt : String
  procesadoAt : Option String
  aprobadoAt : Option String
deriving DecidableEq, Repr

/-- Totals recomputation (nominas.js lines 209-212): a `reduce` over the
settlement list for each of the two fields. -/
def calcularTotales (liquidaciones : List Liquidacion) : Totales :=
  { totalNomina := liquidaciones.foldl (fun sum l => sum + l.totalNomina) 0
    totalConsignado := liquidaciones.foldl (fun sum l => sum + l.totalConsignado) 0 }

/-- Message extracted by `error.message` in the bulk route catch block. -/
def mensajeDe : JsError → String
  | .appError _ message _ => message
  | .referenceError name => name ++ " is not defined"
  | .typeError message => message

/-- Fresh draft batch shell created by the `guardar` path of
`POST /liquidar` (nominas.js lines 183-198). -/
def nominaNueva (periodo tipoNomina now : String) : Nomina :=
  { periodo := periodo
    tipoNomina := tipoNomina
    estado := "borrador"
    liquidaciones := []
    totales := { totalNomina := 0, totalConsignado := 0 }
    errores := none
    creadoAt := now
    procesadoAt := none
    aprobadoAt := none }

/-- JavaScript `Array.findIndex` specialised to the employee-id test
`l => l.cedula === cedula` used by the upsert (nominas.js line 201); the
absent case is modelled as `none` instead of `-1`. -/
def findIndexCedula (cedula : String) : List Liquidacion → Option Nat
  | [] => none
  | l :: ls =>
    if l.cedula = cedula then some 0
    else (findIndexCedula cedula ls).map (fun i => i + 1)

/-- List part of the upsert (nominas.js lines 201-206): replace the first
settlement with the same employee id in place, or push at the end. -/
def upsertCore (ls : List Liquidacion) (liquidacion : Liquidacion) :
    List Liquidacion :=
  match findIndexCedula liquidacion.cedula ls with
  | some i => ls.set i liquidacion
  | none => ls ++ [liquidacion]

/-- Upsert of one settlement into a batch (nominas.js lines 200-213):
`findIndex` on the employee id, replace in place or push, recompute the
totals from scratch, stamp `procesadoAt`.  The batch state (`estado`) is
not consulted. -/
def upsertLiquidacion (nomina : Nomina) (liquidacion : Liquidacion)
    (now : String) : Nomina :=
  let ls := upsertCore nomina.liquidaciones liquidacion
  { nomina with
      liquidaciones := ls
      totales := calcularTotales ls
      procesadoAt := some now }

/-- Engine dispatch used by both settlement routes:
`tipoNomina === 'MENSUAL' ? calcularNominaMensual : calcularNominaSemanal`. -/
def elegirCalculo (tipoNomina : String) :
    Option Empleado → Option Novedades → Option Config →
    Except JsError Liquidacion :=
  if tipoNomina = "MENSUAL" then calcularNominaMensual else calcularNominaSemanal

/-- Pure core of the `guardar` branch of `POST /liquidar` (nominas.js lines
172-218) for an employee already looked up: run the engine (any thrown
error propagates, so nothing is saved), tag the settlement, load the
existing batch or create a fresh draft shell, and upsert.  There is no
check of `nomina.estado` anywhere on this path. -/
def liquidarGuardar (empleado : Option Empleado) (novedades : Option Novedades)
    (config : Option Config) (nominaExistente : Option Nomina)
    (periodo tipoNomina now : String) : Except JsError Nomina :=
  match elegirCalculo tipoNomina empleado novedades config with
  | .error e => .error e
  | .ok liq =>
    let liquidacion := { liq with tipoNomina := tipoNomina }
    let nomina := nominaExistente.getD (nominaNueva periodo tipoNomina now)
    .ok (upsertLiquidacion nomina liquidacion now)

/-- Pure core of `PUT /:periodo/aprobar` (nominas.js lines 335-363) once
the batch has been read: an already approved batch is rejected with
`NOMINA_ALREADY_CLOSED` before anything is written, otherwise the state
flips to `aprobada` and `aprobadoAt` is stamped. -/
def aprobarNomina (nomina : Nomina) (now : String) : Except JsError Nomina :=
  if nomina.estado = "aprobada" then
    .error (.appError "NOMINA_ALREADY_CLOSED" "Este período ya está aprobado" [])
  else
    .ok { nomina with estado := "aprobada", aprobadoAt := some now }

/-- Field-level merge `\x7b ...novedadesDefault,
...(novedadesPorEmpleado[cedula] || \x7b\x7d) \x7d` (nominas.js lines
277-280): a field present on the override wins, otherwise the default
field is kept. -/
def mergeNovedades (novedadesDefault override : Novedades) : Novedades :=
  { diasLaborados := override.diasLaborados.orElse fun _ => novedadesDefault.diasLaborados
    horasExtraDiurna := override.horasExtraDiurna.orElse fun _ => novedadesDefault.horasExtraDiurna
    horasExtraNocturna := override.horasExtraNocturna.orElse fun _ => novedadesDefault.horasExtraNocturna
    horasRecargoNocturno := override.horasRecargoNocturno.orElse fun _ => novedadesDefault.horasRecargoNocturno
    horasExtraDomDiurna := override.horasExtraDomDiurna.orElse fun _ => novedadesDefault.horasExtraDomDiurna
    horasExtraDomNocturna := override.horasExtraDomNocturna.orElse fun _ => novedadesDefault.horasExtraDomNocturna
    dominicalSinComp := override.dominicalSinComp.orElse fun _ => novedadesDefault.dominicalSinComp
    dominicalConComp := override.dominicalConComp.orElse fun _ => novedadesDefault.dominicalConComp
    bonificacion := override.bonificacion.orElse fun _ => novedadesDefault.bonificacion
    prestamo := override.prestamo.orElse fun _ => novedadesDefault.prestamo }

/-- One step of the per-employee loop of `POST /liquidar-all` (nominas.js
lines 275-295): merge the novelties, run the engine inside `try`, and on
failure push an error entry instead of aborting. -/
def liquidarUno (novedadesDefault : Novedades)
    (novedadesPorEmpleado : String → Option Novedades) (config : Option Config)
    (tipoNomina : String) (acc : List Liquidacion × List ErrorEntry)
    (empleado : Empleado) : List Liquidacion × List ErrorEntry :=
  let novedades := mergeNovedades novedadesDefault
    ((novedadesPorEmpleado empleado.cedula).getD novedadesVacias)
  match elegirCalculo tipoNomina (some empleado) (some novedades) config with
  | .ok liq => (acc.1 ++ [{ liq with tipoNomina := tipoNomina }], acc.2)
  | .error e =>
    (acc.1, acc.2 ++ [⟨empleado.cedula, empleado.nombres, mensajeDe e⟩])

/-- Pure core of `POST /liquidar-all` (nominas.js lines 245-314): filter
the active employees, reject an empty roster, run the loop, and build the
period batch with totals summed over the successful settlements and the
error list attached only when non-empty. -/
def liquidarTodos (empleados : List Empleado) (novedadesDefault : Novedades)
    (novedadesPorEmpleado : String → Option Novedades) (config : Option Config)
    (periodo tipoNomina : String) (now : String) : Except JsError Nomina :=
  let empleadosActivos := empleados.filter (fun e => e.activo)
  if empleadosActivos.length = 0 then
    .error (.appError "VALIDATION_ERROR" "No hay empleados activos para liquidar" [])
  else
    let resultado := empleadosActivos.foldl
      (liquidarUno novedadesDefault novedadesPorEmpleado config tipoNomina) ([], [])
    .ok { periodo := periodo
          tipoNomina := tipoNomina
          estado := "borrador"
          liquidaciones := resultado.1
          totales := calcularTotales resultado.1
          errores := if resultado.2.length > 0 then some resultado.2 else none
          creadoAt := now
          procesadoAt := some now
          aprobadoAt := none }

/-! Concrete fixtures, taken from the repository data documented in the API
reference and formula documents (2022 values). -/

/-- Factor table with the 2022 values from `config.json`. -/
def factoresRef : Factores := ⟨5/4, 7/4, 27/20, 2, 5/2, 7/4, 3/4⟩

/-- Configuration with the 2022 values (`smmlv` 1,000,000, transport
subsidy 117,172, 4 percent health and pension, divisor 240). -/
def configRef : Config := ⟨1000000, 117172, 4, 4, some 240, factoresRef⟩

/-- Employee of the documented reference scenario: stored salary
1,000,000, not flagged `esSalarioMinimo`, active. -/
def empleadoRef : Empleado :=
  ⟨"43677978", "DORA JANETH JIMENEZ DAVILA", 1000000, 117172, false, true⟩

/-- Employee with a stored salary of 3,000,000 and the
`esSalarioMinimo` flag set. -/
def empleadoMinimo : Empleado :=
  ⟨"900123", "EMPLEADO MARCADO MINIMO", 3000000, 117172, true, true⟩

/-- Active employee with a negative stored salary. -/
def empleadoNegativo : Empleado :=
  ⟨"800456", "EMPLEADO SALARIO NEGATIVO", -500000, 117172, false, true⟩

/-- Novelties of the reference scenario: 7 days worked, bonus 206,459.87,
every other quantity 0. -/
def novedadesRef : Novedades :=
  ⟨some 7, some 0, some 0, some 0, some 0, some 0, some 0, some 0,
    some (20645987/100), some 0⟩

/-- Novelties with 7 days worked and every other quantity 0. -/
def novedadesSiete : Novedades :=
  ⟨some 7, some 0, some 0, some 0, some 0, some 0, some 0, some 0, some 0, some 0⟩

/-- Novelties with a supplied `diasLaborados` of 0. -/
def novedadesCero : Novedades :=
  ⟨some 0, some 0, some 0, some 0, some 0, some 0, some 0, some 0, some 0, some 0⟩

/-- Novelties that are valid except for a negative
`horasRecargoNocturno`. -/
def novedadesRecargoNegativo : Novedades :=
  ⟨some 7, some 0, some 0, some (-1), some 0, some 0, some 0, some 0, some 0, some 0⟩

/-- Settlement already stored in a batch before the scenarios below. -/
def liquidacionPrevia : Liquidacion := ⟨"111222", "EMPLEADO PREVIO", 100, 90, "SEMANAL"⟩

/-- Batch that has already been approved. -/
def nominaAprobada : Nomina :=
  ⟨"2022-S19", "SEMANAL", "aprobada", [liquidacionPrevia], ⟨100, 90⟩, none,
    "t0", some "t0", some "t1"⟩

/-! Shared lemmas about the engine. -/

/-- Shape of every `calcularNominaSemanal` result: a `ValidationError`
carrying exactly the `validarDatos` list when that list is non-empty, and
otherwise the `ReferenceError` raised by the unbound `salarioBase` of the
transport-subsidy eligibility line.  No input ever yields `.ok`. -/
theorem calcularNominaSemanal_eq (e : Option Empleado) (n : Option Novedades)
    (c : Option Config) :
    calcularNominaSemanal e n c =
      (if (validarDatos e n c).length > 0 then
        .error (.appError "VALIDATION_ERROR" "Error en los datos de entrada"
          (validarDatos e n c))
      else .error (.referenceError "salarioBase")) := by
  unfold calcularNominaSemanal
  split
  · rfl
  · cases e <;> cases n <;> cases c <;> rfl

/-- The weekly engine never returns a settlement. -/
theorem calcularNominaSemanal_nunca_ok (e : Option Empleado)
    (n : Option Novedades) (c : Option Config) (liq : Liquidacion) :
    calcularNominaSemanal e n c ≠ .ok liq := by
  rw [calcularNominaSemanal_eq]
  split <;> simp

/-- The monthly engine never returns a settlement either. -/
theorem calcularNominaMensual_nunca_ok (e : Option Empleado)
    (n : Option Novedades) (c : Option Config) (liq : Liquidacion) :
    calcularNominaMensual e n c ≠ .ok liq := by
  unfold calcularNominaMensual
  cases n with
  | none => simp
  | some nv =>
    dsimp only
    rw [calcularNominaSemanal_eq]
    split <;> simp [Except.map]

/-- Every `AppError` produced by either engine has code
`VALIDATION_ERROR`. -/
theorem elegirCalculo_codigo (tipo : String) (e : Option Empleado)
    (n : Option Novedades) (c : Option Config) (code m : String)
    (d : List Violacion) :
    elegirCalculo tipo e n c = .error (.appError code m d) →
    code = "VALIDATION_ERROR" := by
  unfold elegirCalculo
  split
  · unfold calcularNominaMensual
    cases n with
    | none => simp
    | some nv =>
      dsimp only
      rw [calcularNominaSemanal_eq]
      split
      · intro h
        simp [Except.map] at h
        exact h.1.symm
      · simp [Except.map]
  · rw [calcularNominaSemanal_eq]
    split
    · intro h
      simp at h
      exact h.1.symm
    · simp

/-- Idempotence of the list part of the upsert: writing the same
settlement a second time finds the slot written the first time and
rewrites it in place, so the list is unchanged. -/
theorem upsertCore_idem (ls : List Liquidacion) (liq : Liquidacion) :
    upsertCore (upsertCore ls liq) liq = upsertCore ls liq := by
  induction ls with
  | nil => simp [upsertCore, findIndexCedula]
  | cons l ls ih =>
    by_cases h : l.cedula = liq.cedula
    · simp [upsertCore, findIndexCedula, h]
    · rcases hf : findIndexCedula liq.cedula ls with _ | i
      · have h2 : upsertCore ls liq = ls ++ [liq] := by
          simp [upsertCore, hf]
        rw [h2] at ih
        have h1 : upsertCore (l :: ls) liq = l :: (ls ++ [liq]) := by
          simp [upsertCore, findIndexCedula, h, hf]
        rw [h1]
        rcases hg : findIndexCedula liq.cedula (ls ++ [liq]) with _ | j
        · have e1 : (ls ++ [liq]) ++ [liq] = ls ++ [liq] := by
            have := ih
            simp only [upsertCore, hg] at this
            exact this
          simp only [upsertCore, findIndexCedula, if_neg h, hg, Option.map_none']
          rw [List.cons_append, e1]
        · have e1 : (ls ++ [liq]).set j liq = ls ++ [liq] := by
            have := ih
            simp only [upsertCore, hg] at this
            exact this
          simp only [upsertCore, findIndexCedula, if_neg h, hg, Option.map_some']
          rw [List.set_cons_succ, e1]
      · have h2 : upsertCore ls liq = ls.set i liq := by
          simp [upsertCore, hf]
        rw [h2] at ih
        have h1 : upsertCore (l :: ls) liq = l :: ls.set i liq := by
          simp [upsertCore, findIndexCedula, h, hf]
        rw [h1]
        rcases hg : findIndexCedula liq.cedula (ls.set i liq) with _ | j
        · have e1 : ls.set i liq ++ [liq] = ls.set i liq := by
            have := ih
            simp only [upsertCore, hg] at this
            exact this
          simp only [upsertCore, findIndexCedula, if_neg h, hg, Option.map_none']
          rw [List.cons_append, e1]
        · have e1 : (ls.set i liq).set j liq = ls.set i liq := by
            have := ih
            simp only [upsertCore, hg] at this
            exact this
          simp only [upsertCore, findIndexCedula, if_neg h, hg, Option.map_some']
          rw [List.set_cons_succ, e1]

/-! Claim theorems. -/

/-- C8: settlement upsert into a batch is idempotent per employee id: a
second upsert of the same settlement leaves the settlements list (hence
its length) unchanged and the totals equal to those after a single
insertion, and after every upsert the totals are the sums over the full
settlement list. -/
theorem c8_upsert_idempotente (nomina : Nomina) (liq : Liquidacion)
    (t1 t2 : String) :
    (upsertLiquidacion (upsertLiquidacion nomina liq t1) liq t2).liquidaciones =
      (upsertLiquidacion nomina liq t1).liquidaciones ∧
    (upsertLiquidacion (upsertLiquidacion nomina liq t1) liq t2).liquidaciones.length =
      (upsertLiquidacion nomina liq t1).liquidaciones.length ∧
    (upsertLiquidacion (upsertLiquidacion nomina liq t1) liq t2).totales =
      (upsertLiquidacion nomina liq t1).totales ∧
    (upsertLiquidacion nomina liq t1).totales =
      calcularTotales (upsertLiquidacion nomina liq t1).liquidaciones := by
  have h : (upsertLiquidacion (upsertLiquidacion nomina liq t1) liq t2).liquidaciones =
      (upsertLiquidacion nomina liq t1).liquidaciones := by
    simp only [upsertLiquidacion]
    exact upsertCore_idem nomina.liquidaciones liq
  refine ⟨h, by rw [h], ?_, rfl⟩
  simp only [upsertLiquidacion]
  rw [upsertCore_idem nomina.liquidaciones liq]

/-- C9 (amended): `redondear` rounds to a whole number of cents with ties
rounded toward positive infinity (JavaScript `Math.round` semantics), not
away from zero: the result is the unique multiple of 1/100 whose cent
numerator `z` satisfies `100·x − 1/2 < z ≤ 100·x + 1/2`.  For non-negative
inputs this coincides with round-half-away-from-zero; for negative inputs a
tie rounds toward zero. -/
theorem c9_redondear_medio_hacia_mas_infinito (x : ℚ) :
    ∃ z : ℤ, redondear x = (z : ℚ) / 100 ∧
      100 * x - 1/2 < (z : ℚ) ∧ (z : ℚ) ≤ 100 * x + 1/2 := by
  refine ⟨mathRound (x * 100), rfl, ?_, ?_⟩
  · have h := Int.sub_one_lt_floor (x * 100 + 1/2)
    unfold mathRound
    push_cast at h
    linarith
  · have h := Int.floor_le (x * 100 + 1/2)
    unfold mathRound
    push_cast at h
    linarith

/-- C9 counterexample: a negative cent tie is NOT rounded away from zero:
`redondear (-0.005)` is `0`, not `-0.01` as the claim states. -/
theorem c9_contraejemplo :
    redondear (-1/200) = 0 ∧ redondear (-1/200) ≠ -1/100 := by
  constructor <;> norm_num [redondear, mathRound]

/-- C10: when `config.horaDivisor` is absent or `0` (falsy), every hourly
rate of `calcularValoresBase` is computed with the fallback divisor 240 and
never by a division by the configured zero; when it is a non-zero number
`d`, the hourly value is `salary / d`. -/
theorem c10_divisor_horario_protegido (s : ℚ) (cfg : Config) :
    ((cfg.horaDivisor = none ∨ cfg.horaDivisor = some 0) →
      (calcularValoresBase s cfg).horaOrdinaria = s / 240 ∧
      (calcularValoresBase s cfg).horaExtraDiurna = s / 240 * cfg.factores.horaExtraDiurna ∧
      (calcularValoresBase s cfg).horaExtraNocturna = s / 240 * cfg.factores.horaExtraNocturna ∧
      (calcularValoresBase s cfg).recargoNocturno = s / 240 * cfg.factores.recargoNocturno ∧
      (calcularValoresBase s cfg).horaExtraDomDiurna = s / 240 * cfg.factores.horaExtraDomDiurna ∧
      (calcularValoresBase s cfg).horaExtraDomNocturna = s / 240 * cfg.factores.horaExtraDomNocturna) ∧
    (∀ d : ℚ, d ≠ 0 → cfg.horaDivisor = some d →
      (calcularValoresBase s cfg).horaOrdinaria = s / d) := by
  constructor
  · intro h
    rcases h with h | h <;>
      simp [calcularValoresBase, jsOrDefault, h]
  · intro d hd h
    simp [calcularValoresBase, jsOrDefault, h, hd]

/-- C10 witness: concrete evaluation with an absent divisor and with the
configured divisor 240. -/
theorem c10_testigo :
    (calcularValoresBase 1000000 { configRef with horaDivisor := none }).horaOrdinaria
        = 1000000 / 240 ∧
    (calcularValoresBase 1000000 configRef).horaOrdinaria = 1000000 / 240 :=
  ⟨((c10_divisor_horario_protegido 1000000
      { configRef with horaDivisor := none }).1 (Or.inl rfl)).1,
    (c10_divisor_horario_protegido 1000000 configRef).2 240 (by norm_num) rfl⟩

/-- C1 (code bug): for the employee with stored salary 3,000,000 flagged
`esSalarioMinimo` under `smmlv` 1,000,000 and valid novelties, the engine
does substitute `config.smmlv` for the stored salary in the rate values
(first two conjuncts), but it never reaches the transport-subsidy
computation: the eligibility test reads the unbound identifier
`salarioBase` and the call fails with a `ReferenceError`, instead of
returning a settlement with `auxDevengado = 0`. -/
theorem c1_elegibilidad_lee_identificador_no_ligado :
    salarioBaseReal empleadoMinimo configRef = configRef.smmlv ∧
    (calcularValoresBase (salarioBaseReal empleadoMinimo configRef) configRef).valorDia
      = 1000000 / 30 ∧
    calcularNominaSemanal (some empleadoMinimo) (some novedadesSiete) (some configRef)
      = .error (.referenceError "salarioBase") := by
  refine ⟨rfl, by norm_num [salarioBaseReal, empleadoMinimo, configRef, calcularValoresBase], ?_⟩
  rw [calcularNominaSemanal_eq]
  norm_num [validarDatos, empleadoInvalido, diasInvalidos, negativoSiPresente,
    configInvalida, empleadoMinimo, novedadesSiete, configRef]

/-- C2 (code bug): on the documented reference scenario (salary 1,000,000,
subsidy 117,172, 4 percent health and pension, divisor 240, 7 days worked,
bonus 206,459.87, everything else 0) the engine does not return the
documented settlement: it fails with the `ReferenceError` raised by the
unbound `salarioBase` of the eligibility test. -/
theorem c2_escenario_referencia_falla :
    calcularNominaSemanal (some empleadoRef) (some novedadesRef) (some configRef)
      = .error (.referenceError "salarioBase") := by
  rw [calcularNominaSemanal_eq]
  norm_num [validarDatos, empleadoInvalido, diasInvalidos, negativoSiPresente,
    configInvalida, empleadoRef, novedadesRef, configRef]

/-- Membership in a conditional singleton list forces equality with its
element. -/
theorem mem_ite_singleton {P : Prop} [Decidable P] {x a : Violacion}
    (h : x ∈ (if P then [a] else [])) : x = a := by
  by_cases hp : P
  · rw [if_pos hp] at h
    exact List.mem_singleton.mp h
  · rw [if_neg hp] at h
    exact absurd h (List.not_mem_nil x)

/-- Novelties violating every checked rule at once (and carrying negative
values in the five unchecked quantities as well). -/
def novedadesTodoMal : Novedades :=
  ⟨some 31, some (-1), some (-1), some (-2), some (-2), some (-2), some (-2),
    some (-2), some (-1), some (-1)⟩

/-- C4 (amended): when the novelties object is present, the engine fails
with a `ValidationError` whose `details` list is exactly `validarDatos`,
and that list contains an entry for every violation present in the input
(employee, days range, the four checked negative fields, config).  When
the novelties object is missing, however, `validarDatos` returns early
(see the counterexample): the config violation is then not collected. -/
theorem c4_validacion_completa_si_hay_novedades (e : Option Empleado)
    (nv : Novedades) (c : Option Config) :
    (validarDatos e (some nv) c ≠ [] →
      calcularNominaSemanal e (some nv) c =
        .error (.appError "VALIDATION_ERROR" "Error en los datos de entrada"
          (validarDatos e (some nv) c))) ∧
    (empleadoInvalido e = true →
      Violacion.mk "empleado" "Empleado no válido o sin salario base"
        ∈ validarDatos e (some nv) c) ∧
    (diasInvalidos nv.diasLaborados = true →
      Violacion.mk "diasLaborados" "Debe estar entre 0 y 30"
        ∈ validarDatos e (some nv) c) ∧
    (negativoSiPresente nv.horasExtraDiurna = true →
      Violacion.mk "horasExtraDiurna" "No puede ser negativo"
        ∈ validarDatos e (some nv) c) ∧
    (negativoSiPresente nv.horasExtraNocturna = true →
      Violacion.mk "horasExtraNocturna" "No puede ser negativo"
        ∈ validarDatos e (some nv) c) ∧
    (negativoSiPresente nv.prestamo = true →
      Violacion.mk "prestamo" "No puede ser negativo"
        ∈ validarDatos e (some nv) c) ∧
    (negativoSiPresente nv.bonificacion = true →
      Violacion.mk "bonificacion" "No puede ser negativo"
        ∈ validarDatos e (some nv) c) ∧
    (configInvalida c = true →
      Violacion.mk "config" "Configuración del sistema no disponible"
        ∈ validarDatos e (some nv) c) := by
  refine ⟨?_, ?_, ?_, ?_, ?_, ?_, ?_, ?_⟩ <;> intro h
  · rw [calcularNominaSemanal_eq, if_pos (List.length_pos.mpr h)]
  all_goals simp [validarDatos, h, List.mem_append]

/-- C4 witness: at the input violating every checked rule with the
novelties object present, the engine fails with the full details list and
each of the eight entries is collected. -/
theorem c4_testigo :
    calcularNominaSemanal none (some novedadesTodoMal) none =
      .error (.appError "VALIDATION_ERROR" "Error en los datos de entrada"
        (validarDatos none (some novedadesTodoMal) none)) ∧
    Violacion.mk "empleado" "Empleado no válido o sin salario base"
      ∈ validarDatos none (some novedadesTodoMal) none ∧
    Violacion.mk "diasLaborados" "Debe estar entre 0 y 30"
      ∈ validarDatos none (some novedadesTodoMal) none ∧
    Violacion.mk "horasExtraDiurna" "No puede ser negativo"
      ∈ validarDatos none (some novedadesTodoMal) none ∧
    Violacion.mk "horasExtraNocturna" "No puede ser negativo"
      ∈ validarDatos none (some novedadesTodoMal) none ∧
    Violacion.mk "prestamo" "No puede ser negativo"
      ∈ validarDatos none (some novedadesTodoMal) none ∧
    Violacion.mk "bonificacion" "No puede ser negativo"
      ∈ validarDatos none (some novedadesTodoMal) none ∧
    Violacion.mk "config" "Configuración del sistema no disponible"
      ∈ validarDatos none (some novedadesTodoMal) none :=
  ⟨(c4_validacion_completa_si_hay_novedades none novedadesTodoMal none).1 (by decide),
    (c4_validacion_completa_si_hay_novedades none novedadesTodoMal none).2.1 (by decide),
    (c4_validacion_completa_si_hay_novedades none novedadesTodoMal none).2.2.1 (by decide),
    (c4_validacion_completa_si_hay_novedades none novedadesTodoMal none).2.2.2.1 (by decide),
    (c4_validacion_completa_si_hay_novedades none novedadesTodoMal none).2.2.2.2.1 (by decide),
    (c4_validacion_completa_si_hay_novedades none novedadesTodoMal none).2.2.2.2.2.1 (by decide),
    (c4_validacion_completa_si_hay_novedades none novedadesTodoMal none).2.2.2.2.2.2.1 (by decide),
    (c4_validacion_completa_si_hay_novedades none novedadesTodoMal none).2.2.2.2.2.2.2 (by decide)⟩

/-- C4 counterexample: with the novelties object missing AND the config
missing, the error details carry only the novelties violation — the config
violation is dropped by the early return, contradicting the claim that
both appear. -/
theorem c4_contraejemplo :
    calcularNominaSemanal (some empleadoRef) none none =
      .error (.appError "VALIDATION_ERROR" "Error en los datos de entrada"
        [⟨"novedades", "Novedades no proporcionadas"⟩]) ∧
    Violacion.mk "config" "Configuración del sistema no disponible"
      ∉ validarDatos (some empleadoRef) none none := by
  constructor
  · rw [calcularNominaSemanal_eq]
    norm_num [validarDatos, empleadoInvalido, empleadoRef]
  · decide

/-- C5 (amended): only `horasExtraDiurna`, `horasExtraNocturna`,
`prestamo` and `bonificacion` are checked for negativity — a negative
value in any of them makes the engine fail with a `ValidationError`
containing the corresponding violation — while the five remaining
quantities (`horasRecargoNocturno`, `horasExtraDomDiurna`,
`horasExtraDomNocturna`, `dominicalSinComp`, `dominicalConComp`) are never
inspected by validation: no violation over those fields can ever occur
(last conjunct). -/
theorem c5_solo_cuatro_cantidades_validadas (e : Option Empleado)
    (nv : Novedades) (c : Option Config) :
    (negativoSiPresente nv.horasExtraDiurna = true →
      ∃ ds, calcularNominaSemanal e (some nv) c =
          .error (.appError "VALIDATION_ERROR" "Error en los datos de entrada" ds) ∧
        Violacion.mk "horasExtraDiurna" "No puede ser negativo" ∈ ds) ∧
    (negativoSiPresente nv.horasExtraNocturna = true →
      ∃ ds, calcularNominaSemanal e (some nv) c =
          .error (.appError "VALIDATION_ERROR" "Error en los datos de entrada" ds) ∧
        Violacion.mk "horasExtraNocturna" "No puede ser negativo" ∈ ds) ∧
    (negativoSiPresente nv.prestamo = true →
      ∃ ds, calcularNominaSemanal e (some nv) c =
          .error (.appError "VALIDATION_ERROR" "Error en los datos de entrada" ds) ∧
        Violacion.mk "prestamo" "No puede ser negativo" ∈ ds) ∧
    (negativoSiPresente nv.bonificacion = true →
      ∃ ds, calcularNominaSemanal e (some nv) c =
          .error (.appError "VALIDATION_ERROR" "Error en los datos de entrada" ds) ∧
        Violacion.mk "bonificacion" "No puede ser negativo" ∈ ds) ∧
    (∀ v ∈ validarDatos e (some nv) c,
      v.campo = "empleado" ∨ v.campo = "diasLaborados" ∨
      v.campo = "horasExtraDiurna" ∨ v.campo = "horasExtraNocturna" ∨
      v.campo = "prestamo" ∨ v.campo = "bonificacion" ∨ v.campo = "config") := by
  have paso : ∀ (viol : Violacion), viol ∈ validarDatos e (some nv) c →
      ∃ ds, calcularNominaSemanal e (some nv) c =
          .error (.appError "VALIDATION_ERROR" "Error en los datos de entrada" ds) ∧
        viol ∈ ds := by
    intro viol hm
    refine ⟨validarDatos e (some nv) c, ?_, hm⟩
    rw [calcularNominaSemanal_eq,
      if_pos (List.length_pos.mpr (List.ne_nil_of_mem hm))]
  refine ⟨?_, ?_, ?_, ?_, ?_⟩
  · intro h
    exact paso _ (by simp [validarDatos, h, List.mem_append])
  · intro h
    exact paso _ (by simp [validarDatos, h, List.mem_append])
  · intro h
    exact paso _ (by simp [validarDatos, h, List.mem_append])
  · intro h
    exact paso _ (by simp [validarDatos, h, List.mem_append])
  · intro v hv
    simp only [validarDatos, List.mem_append] at hv
    rcases hv with ((((((h | h) | h) | h) | h) | h) | h) <;>
      rw [mem_ite_singleton h] <;> tauto

/-- C5 witness: at the all-negative novelties input each of the four
checked fields is reported inside the thrown `ValidationError`. -/
theorem c5_testigo :
    (∃ ds, calcularNominaSemanal (some empleadoRef) (some novedadesTodoMal) (some configRef) =
        .error (.appError "VALIDATION_ERROR" "Error en los datos de entrada" ds) ∧
      Violacion.mk "horasExtraDiurna" "No puede ser negativo" ∈ ds) ∧
    (∃ ds, calcularNominaSemanal (some empleadoRef) (some novedadesTodoMal) (some configRef) =
        .error (.appError "VALIDATION_ERROR" "Error en los datos de entrada" ds) ∧
      Violacion.mk "horasExtraNocturna" "No puede ser negativo" ∈ ds) ∧
    (∃ ds, calcularNominaSemanal (some empleadoRef) (some novedadesTodoMal) (some configRef) =
        .error (.appError "VALIDATION_ERROR" "Error en los datos de entrada" ds) ∧
      Violacion.mk "prestamo" "No puede ser negativo" ∈ ds) ∧
    (∃ ds, calcularNominaSemanal (some empleadoRef) (some novedadesTodoMal) (some configRef) =
        .error (.appError "VALIDATION_ERROR" "Error en los datos de entrada" ds) ∧
      Violacion.mk "bonificacion" "No puede ser negativo" ∈ ds) ∧
    ((Violacion.mk "empleado" "Empleado no válido o sin salario base").campo = "empleado" ∨
      (Violacion.mk "empleado" "Empleado no válido o sin salario base").campo = "diasLaborados" ∨
      (Violacion.mk "empleado" "Empleado no válido o sin salario base").campo = "horasExtraDiurna" ∨
      (Violacion.mk "empleado" "Empleado no válido o sin salario base").campo = "horasExtraNocturna" ∨
      (Violacion.mk "empleado" "Empleado no válido o sin salario base").campo = "prestamo" ∨
      (Violacion.mk "empleado" "Empleado no válido o sin salario base").campo = "bonificacion" ∨
      (Violacion.mk "empleado" "Empleado no válido o sin salario base").campo = "config") :=
  ⟨(c5_solo_cuatro_cantidades_validadas (some empleadoRef) novedadesTodoMal (some configRef)).1
      (by decide),
    (c5_solo_cuatro_cantidades_validadas (some empleadoRef) novedadesTodoMal (some configRef)).2.1
      (by decide),
    (c5_solo_cuatro_cantidades_validadas (some empleadoRef) novedadesTodoMal (some configRef)).2.2.1
      (by decide),
    (c5_solo_cuatro_cantidades_validadas (some empleadoRef) novedadesTodoMal (some configRef)).2.2.2.1
      (by decide),
    (c5_solo_cuatro_cantidades_validadas none novedadesSiete none).2.2.2.2
      ⟨"empleado", "Empleado no válido o sin salario base"⟩ (by decide)⟩

/-- C5 counterexample: a negative `horasRecargoNocturno` passes validation
untouched — the violation list is empty and the engine fails with the
unbound-identifier `ReferenceError`, not with a `ValidationError` naming
that field as the claim states. -/
theorem c5_contraejemplo :
    validarDatos (some empleadoRef) (some novedadesRecargoNegativo) (some configRef) = [] ∧
    calcularNominaSemanal (some empleadoRef) (some novedadesRecargoNegativo) (some configRef)
      = .error (.referenceError "salarioBase") := by
  refine ⟨by decide, ?_⟩
  rw [calcularNominaSemanal_eq]
  norm_num [validarDatos, empleadoInvalido, diasInvalidos, negativoSiPresente,
    configInvalida, empleadoRef, novedadesRecargoNegativo, configRef]

/-- C6 (amended): the monthly wrapper replaces `diasLaborados` by 30
whenever it is absent OR equal to 0 (the `||` default tests truthiness,
not presence); only for a supplied non-zero `diasLaborados` is the monthly
result the weekly result on the very same novelties with the monthly tag
mapped over the success case. -/
theorem c6_mensual_reemplaza_dias (e : Option Empleado) (nv : Novedades)
    (c : Option Config) (d : ℚ) :
    (nv.diasLaborados = none → (novedadesMensuales nv).diasLaborados = some 30) ∧
    (nv.diasLaborados = some 0 → (novedadesMensuales nv).diasLaborados = some 30) ∧
    (nv.diasLaborados = some d → d ≠ 0 →
      calcularNominaMensual e (some nv) c =
        (calcularNominaSemanal e (some nv) c).map ponerTipoMensual) := by
  refine ⟨?_, ?_, ?_⟩
  · intro h
    simp [novedadesMensuales, jsOrDefault, h]
  · intro h
    simp [novedadesMensuales, jsOrDefault, h]
  · intro h hd
    have hnv : novedadesMensuales nv = nv := by
      cases nv
      simp_all [novedadesMensuales, jsOrDefault]
    simp [calcularNominaMensual, hnv]

/-- C6 witness: a missing `diasLaborados` becomes 30, and on the
reference novelties (7 days) the monthly engine is the weekly engine with
the monthly tag mapped over it. -/
theorem c6_testigo :
    (novedadesMensuales novedadesVacias).diasLaborados = some 30 ∧
    (novedadesMensuales novedadesCero).diasLaborados = some 30 ∧
    calcularNominaMensual (some empleadoRef) (some novedadesSiete) (some configRef)
      = (calcularNominaSemanal (some empleadoRef) (some novedadesSiete) (some configRef)).map
          ponerTipoMensual :=
  ⟨(c6_mensual_reemplaza_dias (some empleadoRef) novedadesVacias (some configRef) 1).1 rfl,
    (c6_mensual_reemplaza_dias (some empleadoRef) novedadesCero (some configRef) 1).2.1 rfl,
    (c6_mensual_reemplaza_dias (some empleadoRef) novedadesSiete (some configRef) 7).2.2 rfl
      (by norm_num)⟩

/-- C6 counterexample: a supplied `diasLaborados = 0` is NOT passed through
to the engine — the wrapper hands it 30 — so the monthly variant is not
the weekly engine with only the missing-value default changed; moreover no
monthly settlement (tagged or not) exists, since the call fails with the
engine's `ReferenceError`. -/
theorem c6_contraejemplo :
    (novedadesMensuales novedadesCero).diasLaborados = some 30 ∧
    (novedadesMensuales novedadesCero).diasLaborados ≠ novedadesCero.diasLaborados ∧
    calcularNominaMensual (some empleadoRef) (some novedadesCero) (some configRef)
      = .error (.referenceError "salarioBase") := by
  refine ⟨by decide, by decide, ?_⟩
  simp only [calcularNominaMensual]
  rw [calcularNominaSemanal_eq]
  norm_num [validarDatos, empleadoInvalido, diasInvalidos, negativoSiPresente,
    configInvalida, empleadoRef, novedadesCero, novedadesMensuales, jsOrDefault,
    configRef, Except.map]

/-- Draft batch used by the approval scenarios. -/
def nominaBorrador : Nomina := nominaNueva "2022-S20" "SEMANAL" "t5"

/-- C3 (amended): re-approving an APPROVED batch always fails with
`NOMINA_ALREADY_CLOSED` before anything is written (so `aprobadoAt` is
never stamped twice), and approving a non-approved batch stamps it exactly
once; the `guardar` upsert path, however, performs no approval check at
all: whatever the stored batch state, the only `AppError` it can fail with
is a `VALIDATION_ERROR` — never `NOMINA_ALREADY_CLOSED`. -/
theorem c3_aprobacion_terminal_upsert_sin_chequeo (nomina nom2 : Nomina)
    (e : Option Empleado) (n : Option Novedades) (c : Option Config)
    (periodo tipo t t2 : String) :
    (nomina.estado = "aprobada" →
      aprobarNomina nomina t =
        .error (.appError "NOMINA_ALREADY_CLOSED" "Este período ya está aprobado" [])) ∧
    (nomina.estado ≠ "aprobada" →
      aprobarNomina nomina t =
        .ok { nomina with estado := "aprobada", aprobadoAt := some t }) ∧
    (∀ code m d, liquidarGuardar e n c (some nom2) periodo tipo t2 =
        .error (.appError code m d) → code = "VALIDATION_ERROR") := by
  refine ⟨?_, ?_, ?_⟩
  · intro h
    simp [aprobarNomina, h]
  · intro h
    simp [aprobarNomina, h]
  · intro code m d hliq
    unfold liquidarGuardar at hliq
    rcases hcal : elegirCalculo tipo e n c with err | liq
    · rw [hcal] at hliq
      simp only at hliq
      cases hliq
      exact elegirCalculo_codigo tipo e n c code m d hcal
    · rw [hcal] at hliq
      simp at hliq

/-- C3 witness: re-approval of the approved fixture fails with
`NOMINA_ALREADY_CLOSED`, a draft is approved and stamped, and a `guardar`
call that fails with an `AppError` (here: a validating one on a missing
employee) carries code `VALIDATION_ERROR`. -/
theorem c3_testigo :
    aprobarNomina nominaAprobada "t9" =
      .error (.appError "NOMINA_ALREADY_CLOSED" "Este período ya está aprobado" []) ∧
    aprobarNomina nominaBorrador "t6" =
      .ok { nominaBorrador with estado := "aprobada", aprobadoAt := some "t6" } ∧
    "VALIDATION_ERROR" = "VALIDATION_ERROR" :=
  ⟨(c3_aprobacion_terminal_upsert_sin_chequeo nominaAprobada nominaAprobada
      (some empleadoRef) (some novedadesSiete) (some configRef)
      "2022-S19" "SEMANAL" "t9" "t2").1 (by decide),
    (c3_aprobacion_terminal_upsert_sin_chequeo nominaBorrador nominaAprobada
      (some empleadoRef) (some novedadesSiete) (some configRef)
      "2022-S20" "SEMANAL" "t6" "t2").2.1 (by decide),
    (c3_aprobacion_terminal_upsert_sin_chequeo nominaAprobada nominaAprobada
      none (some novedadesSiete) (some configRef)
      "2022-S19" "SEMANAL" "t9" "t2").2.2 "VALIDATION_ERROR"
      "Error en los datos de entrada"
      [⟨"empleado", "Empleado no válido o sin salario base"⟩] (by decide)⟩

/-- C3 counterexample: a settlement upsert (`liquidar` with `guardar`)
against the APPROVED period is NOT rejected with the
`NOMINA_ALREADY_CLOSED` error the claim requires — the call fails with the
engine's unbound-identifier `ReferenceError` instead (and had the engine
succeeded, the path contains no approval check to stop the upsert). -/
theorem c3_contraejemplo :
    liquidarGuardar (some empleadoRef) (some novedadesSiete) (some configRef)
        (some nominaAprobada) "2022-S19" "SEMANAL" "t2"
      = .error (.referenceError "salarioBase") ∧
    liquidarGuardar (some empleadoRef) (some novedadesSiete) (some configRef)
        (some nominaAprobada) "2022-S19" "SEMANAL" "t2"
      ≠ .error (.appError "NOMINA_ALREADY_CLOSED" "Este período ya está aprobado" []) := by
  refine ⟨?_, ?_⟩ <;> decide

/-- Neither dispatch target of the settlement routes ever returns a
settlement. -/
theorem elegirCalculo_nunca_ok (tipo : String) (e : Option Empleado)
    (n : Option Novedades) (c : Option Config) (liq : Liquidacion) :
    elegirCalculo tipo e n c ≠ .ok liq := by
  unfold elegirCalculo
  split
  · exact calcularNominaMensual_nunca_ok e n c liq
  · exact calcularNominaSemanal_nunca_ok e n c liq

/-- Every iteration of the bulk loop leaves the settlement accumulator
untouched and appends exactly one error entry for the employee. -/
theorem liquidarUno_agrega_error (nd : Novedades)
    (npe : String → Option Novedades) (c : Option Config) (tipo : String)
    (acc : List Liquidacion × List ErrorEntry) (emp : Empleado) :
    ∃ msg, liquidarUno nd npe c tipo acc emp =
      (acc.1, acc.2 ++ [⟨emp.cedula, emp.nombres, msg⟩]) := by
  unfold liquidarUno
  rcases hcal : elegirCalculo tipo (some emp)
      (some (mergeNovedades nd ((npe emp.cedula).getD novedadesVacias))) c
    with err | liq
  · exact ⟨mensajeDe err, by simp only [hcal]⟩
  · exact absurd hcal (elegirCalculo_nunca_ok tipo (some emp) _ c liq)

/-- Folding the bulk loop keeps the settlements accumulator and appends
one error entry per employee. -/
theorem foldl_liquidarUno (nd : Novedades) (npe : String → Option Novedades)
    (c : Option Config) (tipo : String) (emps : List Empleado) :
    ∀ acc : List Liquidacion × List ErrorEntry,
      (emps.foldl (liquidarUno nd npe c tipo) acc).1 = acc.1 ∧
      (emps.foldl (liquidarUno nd npe c tipo) acc).2.length =
        acc.2.length + emps.length := by
  induction emps with
  | nil => intro acc; simp
  | cons emp emps ih =>
    intro acc
    obtain ⟨msg, hmsg⟩ := liquidarUno_agrega_error nd npe c tipo acc emp
    obtain ⟨h1, h2⟩ := ih (acc.1, acc.2 ++ [⟨emp.cedula, emp.nombres, msg⟩])
    constructor
    · rw [List.foldl_cons, hmsg, h1]
    · rw [List.foldl_cons, hmsg, h2]
      simp
      omega

/-- C7 (amended): the bulk route never aborts wholesale — it rejects only
an empty active roster, and otherwise always saves a batch — but with the
current engine every active employee fails (the unbound `salarioBase`
read; a negative stored salary is not even a validation failure), so the
batch it builds for any non-empty active roster has NO settlements, one
error entry per active employee, and zero totals. -/
theorem c7_lote_continua_pero_todo_falla (empleados : List Empleado)
    (nd : Novedades) (npe : String → Option Novedades) (c : Option Config)
    (periodo tipo now : String) :
    ((empleados.filter fun e => e.activo) = [] →
      liquidarTodos empleados nd npe c periodo tipo now =
        .error (.appError "VALIDATION_ERROR" "No hay empleados activos para liquidar" [])) ∧
    ((empleados.filter fun e => e.activo) ≠ [] →
      ∃ nomina, liquidarTodos empleados nd npe c periodo tipo now = .ok nomina ∧
        nomina.liquidaciones = [] ∧
        nomina.totales = ⟨0, 0⟩ ∧
        ∃ errs, nomina.errores = some errs ∧
          errs.length = (empleados.filter fun e => e.activo).length) := by
  constructor
  · intro h
    unfold liquidarTodos
    rw [if_pos (by rw [h]; rfl)]
  · intro h
    have hlen : (empleados.filter fun e => e.activo).length ≠ 0 :=
      fun hc => h (List.length_eq_zero.mp hc)
    obtain ⟨h1, h2⟩ := foldl_liquidarUno nd npe c tipo
      (empleados.filter fun e => e.activo) ([], [])
    unfold liquidarTodos
    rw [if_neg hlen]
    refine ⟨_, rfl, h1, ?_, ?_⟩
    · rw [h1]
      rfl
    · simp only [List.length_nil, Nat.zero_add] at h2
      refine ⟨((empleados.filter fun e => e.activo).foldl
          (liquidarUno nd npe c tipo) ([], [])).2, ?_, h2⟩
      simp only
      rw [if_pos (by rw [h2]; exact Nat.pos_of_ne_zero hlen)]

/-- C7 witness: with an empty roster the bulk route rejects, and with the
two-employee roster it saves a batch with no settlements and one error per
active employee. -/
theorem c7_testigo :
    liquidarTodos [] novedadesRef (fun _ => none) (some configRef)
        "2022-S21" "SEMANAL" "t0" =
      .error (.appError "VALIDATION_ERROR" "No hay empleados activos para liquidar" []) ∧
    (∃ nomina, liquidarTodos [empleadoRef, empleadoNegativo] novedadesRef (fun _ => none)
          (some configRef) "2022-S21" "SEMANAL" "t0" = .ok nomina ∧
      nomina.liquidaciones = [] ∧
      nomina.totales = ⟨0, 0⟩ ∧
      ∃ errs, nomina.errores = some errs ∧
        errs.length = (([empleadoRef, empleadoNegativo].filter fun e => e.activo)).length) :=
  ⟨(c7_lote_continua_pero_todo_falla [] novedadesRef (fun _ => none) (some configRef)
      "2022-S21" "SEMANAL" "t0").1 rfl,
    (c7_lote_continua_pero_todo_falla [empleadoRef, empleadoNegativo] novedadesRef
      (fun _ => none) (some configRef) "2022-S21" "SEMANAL" "t0").2 (by decide)⟩

/-- Batch actually produced by the bulk route on the two-employee roster of
the C7 scenario. -/
def nominaLoteFallido : Nomina :=
  ⟨"2022-S19", "SEMANAL", "borrador", [], ⟨0, 0⟩,
    some [⟨"43677978", "DORA JANETH JIMENEZ DAVILA", "salarioBase is not defined"⟩,
      ⟨"800456", "EMPLEADO SALARIO NEGATIVO", "salarioBase is not defined"⟩],
    "t0", some "t0", none⟩

/-- C7 counterexample: over the roster of N = 2 active employees of which
one has a negative stored salary, the bulk route does not produce N−1 = 1
settlements plus 1 error entry as the claim states: it produces 0
settlements and 2 error entries (every employee fails on the engine's
unbound `salarioBase`; the negative salary is not rejected by
validation). -/
theorem c7_contraejemplo :
    liquidarTodos [empleadoRef, empleadoNegativo] novedadesSiete (fun _ => none)
        (some configRef) "2022-S19" "SEMANAL" "t0" = .ok nominaLoteFallido ∧
    nominaLoteFallido.liquidaciones.length = 0 ∧
    (nominaLoteFallido.errores.getD []).length = 2 := by
  refine ⟨by decide, by decide, by decide⟩
